import Mathlib

set_option maxRecDepth 8192

/-!
Verification of the engagement/quota core of the youtube-analysis-tool
repository: a shallow embedding of `engagement_calculator.py`, `youtube.py`,
`reddit.py`, `config/quota_manager.py`, `config/api_manager.py` and the
coverage check of `main.py`, with theorems settling the specified claims.

Modelling conventions: Python numbers are embedded as `ℚ` (counts as `ℕ`/`ℤ`
coerced into `ℚ`), `round(x, n)` as rounding to the nearest multiple of
`10⁻ⁿ`, timestamps and calendar dates as integers (day numbers), Python
dicts as insertion-ordered association lists, and network responses as an
explicit oracle argument.
-/

namespace YTA

/-! ### EngagementCalculator (`src/engagement_calculator.py`) -/

/-- One row of the video dataframe, with the columns the calculator reads. -/
structure VRow where
  upload_date : ℤ
  view_count : ℕ
  like_count : ℕ
  comment_count : ℕ
deriving DecidableEq

/-- `EngagementCalculator.calculate_engagement_rate`:
`(likes + comments) / views * 100`, `0.0` when `views == 0`. -/
def calculate_engagement_rate (views likes comments : ℚ) : ℚ :=
  if views = 0 then 0 else (likes + comments) / views * 100

/-- Result dict of `get_period_stats`. -/
structure PeriodStats where
  videos : ℕ
  views : ℕ
  likes : ℕ
  comments : ℕ
  engagement_rate : ℚ
deriving DecidableEq

/-- The boolean-mask selection
`self.df[(self.df['upload_date'] >= start_date) & (self.df['upload_date'] < end_date)]`. -/
def periodFilter (df : List VRow) (start stop : ℤ) : List VRow :=
  df.filter (fun r => decide (start ≤ r.upload_date) && decide (r.upload_date < stop))

def sumViews (l : List VRow) : ℕ := (l.map VRow.view_count).sum

def sumLikes (l : List VRow) : ℕ := (l.map VRow.like_count).sum

def sumComments (l : List VRow) : ℕ := (l.map VRow.comment_count).sum

/-- `EngagementCalculator.get_period_stats`. -/
def get_period_stats (df : List VRow) (start stop : ℤ) : PeriodStats :=
  let period := periodFilter df start stop
  if period.isEmpty then
    ⟨0, 0, 0, 0, 0⟩
  else
    ⟨period.length, sumViews period, sumLikes period, sumComments period,
      calculate_engagement_rate (sumViews period) (sumLikes period) (sumComments period)⟩

/-- `EngagementCalculator.calculate_change_percentage`. -/
def calculate_change_percentage (current previous : ℚ) : ℚ :=
  if previous = 0 then (if 0 < current then 100 else 0)
  else (current - previous) / previous * 100

/-! ### Coverage check (`src/main.py`, lines 273-277) -/

/-- `coverage_percent = (fetched_count / total_videos_channel * 100) if total_videos_channel > 0 else 0`. -/
def coverage_percent (fetched total : ℕ) : ℚ :=
  if 0 < total then (fetched : ℚ) / total * 100 else 0

/-- The guard of the `st.warning` call: `if coverage_percent < 95`. -/
def coverageWarn (fetched total : ℕ) : Bool :=
  decide (coverage_percent fetched total < 95)

/-! ### Video detail normalization (`src/youtube.py`, `get_video_details`)

The loop body normalizing one raw API item is embedded as `normalizeVideo`.
Raw JSON fields are `Option`s (`none` = key absent).  The two fields parsed
inside a bare `try/except` (`contentDetails['duration']` through
`isodate.parse_duration`, and `snippet['publishedAt']` through
`datetime.fromisoformat`) are embedded as `Option (Option _)`: `none` = key
absent, `some none` = present but unparsable, `some (some x)` = parses to
`x`; both the absent and the unparsable case are swallowed by the bare
`except`.  All other subscript accesses (`item['status']`,
`['privacyStatus']`, `['snippet']`, `['contentDetails']`, `['id']`,
`['title']`) raise `KeyError` when absent, embedded as `Except.error`; the
enclosing batch handler catches only `HttpError`, so these propagate.
Python `round(x, 4)` is modelled as rounding to the nearest multiple of
`10⁻⁴`; the `publish_day`/`publish_hour` calendar formatting of the (UTC)
timestamp is presentation-only and not part of any claim. -/

/-- Python slicing `s[:n]`: the first `n` characters. -/
def pyTake (s : String) (n : ℕ) : String :=
  String.mk (s.data.take n)

/-- Python `round(x, n)`: round to the nearest multiple of `10⁻ⁿ`. -/
def roundTo (q : ℚ) (n : ℕ) : ℚ :=
  (round (q * 10 ^ n) : ℤ) / 10 ^ n

structure RawSnippet where
  title : Option String
  publishedAt : Option (Option ℤ)
  tags : List String
  categoryId : Option String
  description : String
deriving DecidableEq

structure RawStats where
  viewCount : Option ℕ
  likeCount : Option ℕ
  commentCount : Option ℕ
deriving DecidableEq

structure RawContent where
  duration : Option (Option ℕ)
deriving DecidableEq

structure RawStatus where
  privacyStatus : Option String
deriving DecidableEq

/-- One element of `response['items']`. -/
structure RawItem where
  id : Option String
  snippet : Option RawSnippet
  statistics : Option RawStats
  contentDetails : Option RawContent
  status : Option RawStatus
deriving DecidableEq

/-- The `video_data` dict built for each public video. -/
structure VideoRow where
  video_id : String
  title : String
  upload_date : ℤ
  view_count : ℕ
  like_count : ℕ
  comment_count : ℕ
  engagement_rate : ℚ
  duration_seconds : ℕ
  tags : List String
  category_id : String
  description : String
deriving DecidableEq

/-- The inline rate
`((like_count + comment_count) / view_count * 100) if view_count > 0 else 0.0`. -/
def videoEngagementRate (views likes comments : ℕ) : ℚ :=
  if 0 < views then ((likes : ℚ) + comments) / views * 100 else 0

/-- The body of the per-item loop of `get_video_details`: `Except.error`
models an uncaught `KeyError`, `Except.ok none` a non-public video skipped
by `continue`, `Except.ok (some row)` a row appended to `all_video_data`. -/
def normalizeVideo (now : ℤ) (item : RawItem) : Except String (Option VideoRow) :=
  match item.status with
  | none => Except.error "KeyError: status"
  | some st =>
    match st.privacyStatus with
    | none => Except.error "KeyError: privacyStatus"
    | some ps =>
      if ps ≠ "public" then Except.ok none
      else
        match item.snippet with
        | none => Except.error "KeyError: snippet"
        | some sn =>
          match item.contentDetails with
          | none => Except.error "KeyError: contentDetails"
          | some cd =>
            let stats := item.statistics.getD ⟨none, none, none⟩
            let duration_seconds : ℕ :=
              match cd.duration with
              | some (some s) => s
              | _ => 0
            let upload_date : ℤ :=
              match sn.publishedAt with
              | some (some t) => t
              | _ => now
            let view_count := stats.viewCount.getD 0
            let like_count := stats.likeCount.getD 0
            let comment_count := stats.commentCount.getD 0
            match item.id with
            | none => Except.error "KeyError: id"
            | some vid =>
              match sn.title with
              | none => Except.error "KeyError: title"
              | some ttl =>
                Except.ok (some
                  { video_id := vid
                    title := ttl
                    upload_date := upload_date
                    view_count := view_count
                    like_count := like_count
                    comment_count := comment_count
                    engagement_rate :=
                      roundTo (videoEngagementRate view_count like_count comment_count) 4
                    duration_seconds := duration_seconds
                    tags := sn.tags
                    category_id := sn.categoryId.getD ""
                    description := pyTake sn.description 500 })

/-- The `for item in response.get('items', [])` loop: sequentially
normalize the items of one batch, appending rows; an uncaught exception
aborts the whole call. -/
def processBatch (now : ℤ) : List RawItem → Except String (List VideoRow)
  | [] => Except.ok []
  | it :: rest =>
    match normalizeVideo now it with
    | Except.error e => Except.error e
    | Except.ok none => processBatch now rest
    | Except.ok (some row) =>
      match processBatch now rest with
      | Except.error e => Except.error e
      | Except.ok rows => Except.ok (row :: rows)

/-- A well-formed public raw item with the given id, title, duration,
timestamp and counts. -/
def mkItem (vid ttl : String) (dur : Option (Option ℕ)) (pub : Option (Option ℤ))
    (v l c : Option ℕ) : RawItem :=
  { id := some vid
    snippet := some ⟨some ttl, pub, [], none, ""⟩
    statistics := some ⟨v, l, c⟩
    contentDetails := some ⟨dur⟩
    status := some ⟨some "public"⟩ }

/-- A fully well-formed item (200 views, 10 likes, 5 comments). -/
def itemA : RawItem := mkItem "vid1" "first" (some (some 60)) (some (some 1000))
  (some 200) (some 10) (some 5)

/-- A public item whose `snippet` lacks the required `title` key. -/
def badItem : RawItem :=
  { id := some "vid2"
    snippet := some ⟨none, some (some 5), [], none, ""⟩
    statistics := some ⟨some 1, some 1, some 1⟩
    contentDetails := some ⟨some (some 1)⟩
    status := some ⟨some "public"⟩ }

/-- The row `get_video_details` produces for `itemA`. -/
def rowA : VideoRow :=
  { video_id := "vid1"
    title := "first"
    upload_date := 1000
    view_count := 200
    like_count := 10
    comment_count := 5
    engagement_rate := roundTo (videoEngagementRate 200 10 5) 4
    duration_seconds := 60
    tags := []
    category_id := ""
    description := "" }

/-! ### Channel identifier resolution (`src/youtube.py`, `extract_channel_id`)

Python strings are handled as their character lists; `.strip()` is
`pyStrip`.  `re.search(r'PRE([^/?&]+)', s)` for a literal `PRE` is embedded
as `scanCapture`: try every position left to right, match the literal
prefix there, then capture a maximal nonempty run of characters other than
`/`, `?`, `&`.  The network is an oracle: `forHandle q = none` models a
handle lookup returning no items *or* raising (swallowed by the bare
`except`), `searchChannels q = []` a search returning no items or raising
`HttpError` (also swallowed).  The `ℕ` component of the result counts
oracle consultations, i.e. network calls.  The `ValueError` raised at the
end (the spec's `ResolutionError`) is `Except.error` carrying the message
f-string. -/

/-- Python `str.strip()`. -/
def pyStrip (s : List Char) : List Char :=
  ((s.dropWhile Char.isWhitespace).reverse.dropWhile Char.isWhitespace).reverse

/-- The character class `[^/?&]`. -/
def notDelim (c : Char) : Bool :=
  !(c == '/' || c == '?' || c == '&')

/-- Match `PRE([^/?&]+)` anchored at the start of `s`. -/
def captureAt (pre s : List Char) : Option (List Char) :=
  if pre.isPrefixOf s then
    let cap := (s.drop pre.length).takeWhile notDelim
    if cap.isEmpty then none else some cap
  else none

/-- `re.search`: first position (left to right) where `PRE([^/?&]+)` matches. -/
def scanCapture (pre : List Char) : List Char → Option (List Char)
  | [] => none
  | c :: rest =>
    match captureAt pre (c :: rest) with
    | some cap => some cap
    | none => scanCapture pre rest

/-- One item of a channel-search response. -/
structure SearchItem where
  channelTitle : String
  channelId : String
deriving DecidableEq

/-- The network, as an oracle. -/
structure NetOracle where
  forHandle : String → Option String
  searchChannels : String → List SearchItem

/-- `.lower()`. -/
def pyLower (s : List Char) : List Char :=
  s.map Char.toLower

/-- `.lower().replace(' ', '')`. -/
def pyLowerNoSpace (s : List Char) : List Char :=
  (s.map Char.toLower).filter (fun c => !(c == ' '))

/-- The search fallback shared by all three branches: prefer an exact
(normalized) title match, else take the first result; `none` when the
response has no items. -/
def searchResolve (items : List SearchItem) (key : List Char)
    (norm : List Char → List Char) : Option String :=
  match items.find? (fun it => norm it.channelTitle.data == norm key) with
  | some it => some it.channelId
  | none => items.head?.map SearchItem.channelId

/-- `identifier.startswith('UC') and len(identifier) == 24`. -/
def ucCheck (s : List Char) : Bool :=
  (s.take 2 == ['U', 'C']) && (s.length == 24)

/-- The five URL patterns, in the order tried. -/
def urlPatterns : List (List Char) :=
  ["youtube.com/channel/".data, "youtube.com/c/".data, "youtube.com/user/".data,
    "youtube.com/@".data, "youtube.com/".data]

/-- The `for pattern in patterns` loop: on a capture, return it directly if
it is a direct channel ID, else try the handle lookup, then the search
fallback; on failure continue with the remaining patterns.  The second
component accumulates the network-call count. -/
def patLoop (net : NetOracle) (s : List Char) : List (List Char) → ℕ → Option String × ℕ
  | [], n => (none, n)
  | pre :: ps, n =>
    match scanCapture pre s with
    | none => patLoop net s ps n
    | some ident =>
      if ucCheck ident then (some (String.mk ident), n)
      else
        match net.forHandle (String.mk ident) with
        | some cid => (some cid, n + 1)
        | none =>
          match searchResolve (net.searchChannels (String.mk ident)) ident pyLowerNoSpace with
          | some cid => (some cid, n + 2)
          | none => patLoop net s ps (n + 2)

/-- The URL-pattern stage followed by the last-resort direct search and the
final `raise ValueError(f"Could not extract channel ID from: {...}")`. -/
def afterHandleStage (net : NetOracle) (s : List Char) (n : ℕ) : Except String String × ℕ :=
  match patLoop net s urlPatterns n with
  | (some cid, m) => (Except.ok cid, m)
  | (none, m) =>
    match searchResolve (net.searchChannels (String.mk s)) s pyLower with
    | some cid => (Except.ok cid, m + 1)
    | none =>
      (Except.error (String.mk ("Could not extract channel ID from: ".data ++ s)), m + 1)

/-- `YouTubeChannelAnalyser.extract_channel_id`. -/
def extract_channel_id (net : NetOracle) (input : String) : Except String String × ℕ :=
  let s := pyStrip input.data
  if ucCheck s then (Except.ok (String.mk s), 0)
  else if s.take 1 = ['@'] then
    let username := s.drop 1
    match net.forHandle (String.mk username) with
    | some cid => (Except.ok cid, 1)
    | none =>
      match searchResolve (net.searchChannels (String.mk username)) username pyLower with
      | some cid => (Except.ok cid, 2)
      | none => afterHandleStage net s 2
  else afterHandleStage net s 0

/-- The oracle of a network on which every lookup and search comes back
empty. -/
def emptyNet : NetOracle :=
  { forHandle := fun _ => none
    searchChannels := fun _ => [] }

/-! ### Reddit per-post engagement (`src/reddit.py`)

`_fetch_subreddit_posts` computes
`engagement = ((post.score + post.num_comments) / member_count) * 100` and
stores `round(engagement, 4)`; a `ZeroDivisionError` (member count 0) is
caught by the per-post `except` and the post skipped, modelled as `none`.
`_fetch_user_posts` computes
`engagement = ((post.num_comments + post.total_awards_received) / max(post.score, 1)) * 100`
and stores `round(engagement, 2)`; its denominator is never zero. -/

/-- The praw fields both fetchers read for the engagement computation. -/
structure RawPost where
  score : ℤ
  num_comments : ℕ
  total_awards_received : ℕ
deriving DecidableEq

/-- The row fields relevant to engagement (further metadata fields of the
posts dict are copied through unchanged and play no role in any claim). -/
structure RedditPostRow where
  upvotes : ℤ
  num_comments : ℕ
  num_awards : ℕ
  engagement_rate : ℚ
deriving DecidableEq

/-- Per-post row of `RedditAnalyser._fetch_subreddit_posts`. -/
def subredditPostRow (member_count : ℤ) (p : RawPost) : Option RedditPostRow :=
  if member_count = 0 then none
  else some
    { upvotes := p.score
      num_comments := p.num_comments
      num_awards := p.total_awards_received
      engagement_rate := roundTo (((p.score : ℚ) + p.num_comments) / member_count * 100) 4 }

/-- Per-post row of `RedditAnalyser._fetch_user_posts`. -/
def userPostRow (p : RawPost) : RedditPostRow :=
  { upvotes := p.score
    num_comments := p.num_comments
    num_awards := p.total_awards_received
    engagement_rate :=
      roundTo (((p.num_comments : ℚ) + p.total_awards_received)
        / ((max p.score 1 : ℤ) : ℚ) * 100) 2 }

/-- The subreddit row produced for a 10-score/10-comment/0-award post in a
100-member subreddit. -/
def postRowB : RedditPostRow :=
  { upvotes := 10
    num_comments := 10
    num_awards := 0
    engagement_rate := roundTo (((10 : ℚ) + 10) / 100 * 100) 4 }

/-! ### EngagementCalculator as an object with a mutable-store semantics

To state the frame property of the constructor's `self.df = df.copy()`,
dataframes live in an explicit store (heap) of dataframe values and the
caller passes a reference (index).  `__init__` appends a copy of the
referenced dataframe and stores the fresh reference.  Every dataframe
operation the methods perform in the source — boolean-mask selection,
`.sum()`, `len()` — is a non-mutating pandas read, so each embedded method
computes its value from the stored dataframe and leaves the store as is. -/

abbrev DFStore := List (List VRow)

/-- The calculator object: a reference to its private dataframe plus the
`self.now` timestamp captured at construction. -/
structure EngCalc where
  dfRef : ℕ
  now : ℤ
deriving DecidableEq

/-- `EngagementCalculator.__init__`: copy the caller's dataframe into a
fresh store cell. -/
def engCalcInit (store : DFStore) (dfRef : ℕ) (now : ℤ) : EngCalc × DFStore :=
  (⟨store.length, now⟩, store ++ [store.getD dfRef []])

/-- `self.df`. -/
def readDf (store : DFStore) (c : EngCalc) : List VRow :=
  store.getD c.dfRef []

/-- The public methods of `EngagementCalculator` (with their arguments). -/
inductive CalcMethod where
  | periodStats (start stop : ℤ)
  | last30
  | prev30
  | comparison
  | changePct (current previous : ℚ)
  | overall
  | trend (days : ℕ)
deriving DecidableEq

/-- `get_overall_engagement`: all-time sums of `self.df`. -/
def get_overall_engagement (df : List VRow) : PeriodStats :=
  ⟨df.length, sumViews df, sumLikes df, sumComments df,
    calculate_engagement_rate (sumViews df) (sumLikes df) (sumComments df)⟩

/-- `get_engagement_trend`: daily rates for the trailing `days` days,
oldest first. -/
def get_engagement_trend (df : List VRow) (now : ℤ) (days : ℕ) : List ℚ :=
  (((List.range days).map
    (fun i => (get_period_stats df (now - i - 1) (now - i)).engagement_rate))).reverse

/-- `get_engagement_comparison`: current and previous 30-day windows plus
the change percentages. -/
def get_engagement_comparison (df : List VRow) (now : ℤ) : PeriodStats × PeriodStats × ℚ :=
  let current := get_period_stats df (now - 30) now
  let previous := get_period_stats df (now - 60) (now - 30)
  (current, previous,
    calculate_change_percentage current.engagement_rate previous.engagement_rate)

/-- The value a method call returns. -/
inductive CalcResult where
  | stats (s : PeriodStats)
  | cmp (c : PeriodStats × PeriodStats × ℚ)
  | rat (q : ℚ)
  | series (l : List ℚ)
deriving DecidableEq

/-- One method call: the returned value and the store afterwards. -/
def runMethod (store : DFStore) (c : EngCalc) : CalcMethod → CalcResult × DFStore
  | .periodStats a b => (.stats (get_period_stats (readDf store c) a b), store)
  | .last30 => (.stats (get_period_stats (readDf store c) (c.now - 30) c.now), store)
  | .prev30 => (.stats (get_period_stats (readDf store c) (c.now - 60) (c.now - 30)), store)
  | .comparison => (.cmp (get_engagement_comparison (readDf store c) c.now), store)
  | .changePct cur prev => (.rat (calculate_change_percentage cur prev), store)
  | .overall => (.stats (get_overall_engagement (readDf store c)), store)
  | .trend d => (.series (get_engagement_trend (readDf store c) c.now d), store)

/-- Run a sequence of method calls, threading the store. -/
def runMethods (store : DFStore) (c : EngCalc) : List CalcMethod → DFStore
  | [] => store
  | m :: ms => runMethods (runMethod store c m).2 c ms

/-! ### QuotaManager (`src/config/quota_manager.py`) and
APIManager (`src/config/api_manager.py`)

Dates (ISO date strings in the JSON state) are modelled as day numbers `ℤ`;
the nested JSON dicts as insertion-ordered association lists. -/

/-- The persisted usage object: date ↦ (platform ↦ count). -/
abbrev Usage := List (ℤ × List (String × ℕ))

/-- Python dict read `m.get(k)`. -/
def getVal {α β : Type} [DecidableEq α] : List (α × β) → α → Option β
  | [], _ => none
  | (q, w) :: rest, k => if q = k then some w else getVal rest k

/-- Python dict assignment `m[k] = v`: replace in place, else append. -/
def setVal {α β : Type} [DecidableEq α] : List (α × β) → α → β → List (α × β)
  | [], k, v => [(k, v)]
  | (q, w) :: rest, k, v => if q = k then (k, v) :: rest else (q, w) :: setVal rest k v

/-- `usage.get(self.today, {}).get(platform, 0)`. -/
def getUsage (u : Usage) (today : ℤ) (platform : String) : ℕ :=
  (getVal ((getVal u today).getD []) platform).getD 0

/-- The hard-coded fallback `50 if platform == "youtube" else 1000`. -/
def default_limit (platform : String) : ℕ :=
  if platform = "youtube" then 50 else 1000

/-- The limit lookup of `can_make_request`/`get_usage_stats`: the
`st.secrets["limits"]` section (`none` when absent), keyed by
`f"{platform}_daily_limit"`, defaulting to `default_limit`. -/
def limitFor (secrets : Option (List (String × ℕ))) (platform : String) : ℕ :=
  match secrets with
  | some tbl =>
    match getVal tbl (platform ++ "_daily_limit") with
    | some l => l
    | none => default_limit platform
  | none => default_limit platform

/-- `QuotaManager.can_make_request`: `today_usage < limit`. -/
def can_make_request (secrets : Option (List (String × ℕ))) (u : Usage) (today : ℤ)
    (platform : String) : Bool :=
  decide (getUsage u today platform < limitFor secrets platform)

/-- `QuotaManager.increment_usage`. -/
def increment_usage (u : Usage) (today : ℤ) (platform : String) : Usage :=
  let inner := (getVal u today).getD []
  setVal u today (setVal inner platform ((getVal inner platform).getD 0 + 1))

/-- `N` successive calls to `increment_usage` on the same day and platform. -/
def incrN : ℕ → Usage → ℤ → String → Usage
  | 0, u, _, _ => u
  | n + 1, u, t, p => increment_usage (incrN n u t p) t p

/-- `QuotaManager._cleanup_old_data`: keep only the dates
`[today - i for i in range(7)]`. -/
def cleanup_old_data (u : Usage) (today : ℤ) : Usage :=
  let dates_to_keep := (List.range 7).map (fun i => today - (i : ℤ))
  u.filter (fun kv => decide (kv.1 ∈ dates_to_keep))

/-- `APIManager.reset_quota_if_needed`: `{k: v for k, v in usage.items() if k == today}`. -/
def reset_quota_if_needed (u : Usage) (today : ℤ) : Usage :=
  u.filter (fun kv => decide (kv.1 = today))

end YTA

namespace YTA

/-! ### Lemmas on the dict model -/

theorem getVal_setVal_self {α β : Type} [DecidableEq α] (m : List (α × β)) (k : α) (v : β) :
    getVal (setVal m k v) k = some v := by
  induction m with
  | nil => simp [setVal, getVal]
  | cons q rest ih =>
    by_cases h : q.1 = k
    · simp [setVal, getVal, h]
    · simp [setVal, getVal, h, ih]

theorem getVal_setVal_ne {α β : Type} [DecidableEq α] (m : List (α × β)) (k j : α) (v : β)
    (h : j ≠ k) : getVal (setVal m k v) j = getVal m j := by
  induction m with
  | nil => simp [setVal, getVal, Ne.symm h]
  | cons q rest ih =>
    by_cases hq : q.1 = k
    · cases q with
      | mk q1 q2 =>
        simp only at hq
        subst hq
        have hne : ¬ q1 = j := fun hh => h hh.symm
        simp [setVal, getVal, hne]
    · simp only [setVal, hq, if_false, getVal, ih]

theorem getUsage_increment_self (u : Usage) (t : ℤ) (p : String) :
    getUsage (increment_usage u t p) t p = getUsage u t p + 1 := by
  simp [getUsage, increment_usage, getVal_setVal_self]

theorem getUsage_increment_other_day (u : Usage) (t d : ℤ) (p q : String) (h : d ≠ t) :
    getUsage (increment_usage u t p) d q = getUsage u d q := by
  simp [getUsage, increment_usage, getVal_setVal_ne _ _ _ _ h]

theorem getUsage_incrN (n : ℕ) (t : ℤ) (p : String) :
    getUsage (incrN n [] t p) t p = n := by
  induction n with
  | zero => simp [incrN, getUsage, getVal]
  | succ m ih => simp [incrN, getUsage_increment_self, ih]

theorem getUsage_incrN_other_day (n : ℕ) (t d : ℤ) (p q : String) (h : d ≠ t) :
    getUsage (incrN n [] t p) d q = 0 := by
  induction n with
  | zero => simp [incrN, getUsage, getVal]
  | succ m ih => simp [incrN, getUsage_increment_other_day _ _ _ _ _ h, ih]

/-! ### Lemmas on rounding and normalization -/

theorem roundTo_abs_sub_le (q : ℚ) (n : ℕ) : |roundTo q n - q| ≤ 1 / (2 * 10 ^ n) := by
  have h10 : (0 : ℚ) < 10 ^ n := by positivity
  have h := abs_sub_round (q * 10 ^ n)
  rw [abs_sub_comm] at h
  have heq : roundTo q n - q = ((round (q * 10 ^ n) : ℚ) - q * 10 ^ n) / 10 ^ n := by
    rw [roundTo]
    field_simp
    ring
  rw [heq, abs_div, abs_of_pos h10]
  rw [div_le_div_iff₀ h10 (by positivity)]
  calc |(round (q * 10 ^ n) : ℚ) - q * 10 ^ n| * (2 * 10 ^ n)
      ≤ (1 / 2) * (2 * 10 ^ n) := by
        apply mul_le_mul_of_nonneg_right h (by positivity)
    _ = 1 * 10 ^ n := by ring

theorem videoEngagementRate_eq (v l c : ℕ) :
    videoEngagementRate v l c = if v = 0 then 0 else ((l : ℚ) + c) / v * 100 := by
  cases v with
  | zero => simp [videoEngagementRate]
  | succ k => simp [videoEngagementRate]

theorem normalizeVideo_rate (now : ℤ) (it : RawItem) (row : VideoRow)
    (h : normalizeVideo now it = Except.ok (some row)) :
    row.engagement_rate =
      roundTo (videoEngagementRate row.view_count row.like_count row.comment_count) 4 := by
  rw [normalizeVideo] at h
  repeat' split at h
  all_goals simp_all
  all_goals (rw [← h])

theorem patLoop_no_match (net : NetOracle) (s : List Char) (pats : List (List Char)) (n : ℕ)
    (h : ∀ pre ∈ pats, scanCapture pre s = none) :
    patLoop net s pats n = (none, n) := by
  induction pats generalizing n with
  | nil => rfl
  | cons pre ps ih =>
    simp only [patLoop, h pre (List.mem_cons_self pre ps)]
    exact ih n (fun p hp => h p (List.mem_cons_of_mem pre hp))

theorem runMethod_store (store : DFStore) (c : EngCalc) (m : CalcMethod) :
    (runMethod store c m).2 = store := by
  cases m <;> rfl

theorem runMethods_store (store : DFStore) (c : EngCalc) (ms : List CalcMethod) :
    runMethods store c ms = store := by
  induction ms generalizing store with
  | nil => rfl
  | cons m ms ih =>
    rw [runMethods, runMethod_store]
    exact ih store

/-! ### Theorems -/

/-- **C3.** `calculate_change_percentage(current, previous)` is
`(current - previous) / previous * 100` for `previous ≠ 0`; for
`previous = 0` it is `100.0` when `current > 0` and `0.0` otherwise; in
particular it maps `(0,0) ↦ 0`, `(5,0) ↦ 100`, `(5,10) ↦ -50`. -/
theorem change_percentage_spec :
    (∀ current previous : ℚ, previous ≠ 0 →
      calculate_change_percentage current previous = (current - previous) / previous * 100)
    ∧ (∀ current : ℚ, calculate_change_percentage current 0 = if 0 < current then 100 else 0)
    ∧ calculate_change_percentage 0 0 = 0
    ∧ calculate_change_percentage 5 0 = 100
    ∧ calculate_change_percentage 5 10 = -50 := by
  refine ⟨fun c p hp => ?_, fun c => ?_, ?_, ?_, ?_⟩
  · simp [calculate_change_percentage, hp]
  · simp [calculate_change_percentage]
  · simp [calculate_change_percentage]
  · norm_num [calculate_change_percentage]
  · norm_num [calculate_change_percentage]

/-- Witness for `change_percentage_spec` at `current = 7`, `previous = 2`. -/
theorem change_percentage_spec_witness :
    calculate_change_percentage 7 2 = (7 - 2) / 2 * 100 :=
  change_percentage_spec.1 7 2 (by norm_num)

/-- **C6.** For `total > 0` the coverage percentage is
`fetched / total * 100`, and the partial-coverage warning fires iff
`fetched / total < 0.95`; fetching 94 of 100 warns, 95 of 100 does not,
and `coverage_percent 95 100 = 95`. -/
theorem coverage_warning_spec (fetched total : ℕ) (h : 0 < total) :
    coverage_percent fetched total = (fetched : ℚ) / total * 100
    ∧ (coverageWarn fetched total = true ↔ (fetched : ℚ) / total < 95 / 100)
    ∧ coverageWarn 94 100 = true
    ∧ coverageWarn 95 100 = false
    ∧ coverage_percent 95 100 = 95 := by
  refine ⟨by simp [coverage_percent, h], ?_, by norm_num [coverageWarn, coverage_percent],
    by norm_num [coverageWarn, coverage_percent], by norm_num [coverage_percent]⟩
  have ht : (0 : ℚ) < total := by exact_mod_cast h
  constructor
  · intro hw
    have : coverage_percent fetched total < 95 := by
      simpa [coverageWarn] using hw
    rw [coverage_percent, if_pos h] at this
    nlinarith
  · intro hlt
    have : coverage_percent fetched total < 95 := by
      rw [coverage_percent, if_pos h]
      nlinarith
    simpa [coverageWarn] using this

/-- **C1.** The standalone `calculate_engagement_rate` is exactly
`(likes + comments) / views * 100` for `views ≠ 0` and `0.0` for
`views = 0`; and every row produced by the detail-fetch normalization
carries that same rate of its own counts (`0.0` when `view_count = 0`),
exact to the stored 4-decimal rounding precision of `round(x, 4)`. -/
theorem engagement_rate_spec :
    (∀ views likes comments : ℚ,
      calculate_engagement_rate views likes comments =
        if views = 0 then 0 else (likes + comments) / views * 100)
    ∧ (∀ (now : ℤ) (it : RawItem) (row : VideoRow),
        normalizeVideo now it = Except.ok (some row) →
        row.engagement_rate =
          roundTo (if row.view_count = 0 then 0
            else ((row.like_count : ℚ) + row.comment_count) / row.view_count * 100) 4
        ∧ (row.view_count = 0 → row.engagement_rate = 0)
        ∧ |row.engagement_rate -
            (if row.view_count = 0 then 0
             else ((row.like_count : ℚ) + row.comment_count) / row.view_count * 100)|
            ≤ 1 / 20000) := by
  refine ⟨fun v l c => rfl, fun now it row h => ?_⟩
  have hr := normalizeVideo_rate now it row h
  have he := videoEngagementRate_eq row.view_count row.like_count row.comment_count
  refine ⟨by rw [hr, he], fun h0 => ?_, ?_⟩
  · rw [hr, h0]
    norm_num [videoEngagementRate, roundTo]
  · rw [hr, ← he]
    have hb := roundTo_abs_sub_le
      (videoEngagementRate row.view_count row.like_count row.comment_count) 4
    norm_num at hb
    exact hb

/-- Witness for `engagement_rate_spec` on the concrete item `itemA`
(200 views, 10 likes, 5 comments). -/
theorem engagement_rate_spec_witness :
    rowA.engagement_rate =
      roundTo (if rowA.view_count = 0 then 0
        else ((rowA.like_count : ℚ) + rowA.comment_count) / rowA.view_count * 100) 4
    ∧ (rowA.view_count = 0 → rowA.engagement_rate = 0)
    ∧ |rowA.engagement_rate -
        (if rowA.view_count = 0 then 0
         else ((rowA.like_count : ℚ) + rowA.comment_count) / rowA.view_count * 100)|
        ≤ 1 / 20000 :=
  engagement_rate_spec.2 0 itemA rowA rfl

/-- **C7, counterexample.** A public record missing the required `title`
field is *not* merely excluded: the `KeyError` escapes the per-batch
`except HttpError` handler, so the whole batch call aborts — with the
missing-title item second in the batch, `processBatch` returns an error
instead of the one good row. -/
theorem normalization_missing_field_aborts :
    processBatch 0 [itemA, badItem] = Except.error "KeyError: title"
    ∧ processBatch 0 [itemA] = Except.ok [rowA] :=
  ⟨rfl, rfl⟩

/-- **C7, amended.** Normalization never throws on malformed
duration/timestamp values — an absent or unparsable ISO-8601 duration
defaults to 0 seconds and an absent or unparsable timestamp defaults to
the current UTC time — but a record missing a required structural field
(here: `title`) raises an uncaught `KeyError` that aborts the whole
detail-fetch call, because the per-batch handler catches only
`HttpError`. -/
theorem normalization_defaults_spec :
    (∀ (now : ℤ) (vid ttl : String) (dur : Option (Option ℕ)) (pub : Option (Option ℤ))
        (v l c : Option ℕ),
      ∃ row : VideoRow,
        normalizeVideo now (mkItem vid ttl dur pub v l c) = Except.ok (some row)
        ∧ (dur = none ∨ dur = some none → row.duration_seconds = 0)
        ∧ (∀ s : ℕ, dur = some (some s) → row.duration_seconds = s)
        ∧ (pub = none ∨ pub = some none → row.upload_date = now)
        ∧ (∀ t : ℤ, pub = some (some t) → row.upload_date = t))
    ∧ (∀ now : ℤ, processBatch now [itemA, badItem] = Except.error "KeyError: title") := by
  constructor
  · intro now vid ttl dur pub v l c
    refine ⟨_, rfl, ?_, ?_, ?_, ?_⟩
    · rintro (rfl | rfl) <;> rfl
    · rintro s rfl
      rfl
    · rintro (rfl | rfl) <;> rfl
    · rintro t rfl
      rfl
  · intro now
    rfl

/-- Witness for `normalization_defaults_spec`: an item with unparsable
duration and timestamp normalizes to duration 0 and upload time `now = 7`. -/
theorem normalization_defaults_spec_witness :
    ∃ row : VideoRow,
      normalizeVideo 7 (mkItem "v" "t" (some none) (some none) (some 3) (some 4) (some 5))
        = Except.ok (some row)
      ∧ row.duration_seconds = 0 ∧ row.upload_date = 7 := by
  obtain ⟨row, h1, h2, _, h4, _⟩ :=
    normalization_defaults_spec.1 7 "v" "t" (some none) (some none) (some 3) (some 4) (some 5)
  exact ⟨row, h1, h2 (Or.inr rfl), h4 (Or.inr rfl)⟩

/-- **C8.** The two Reddit engagement formulas are distinct: a subreddit
post's rate is `(score + comments) / member_count * 100` (audience
denominator, stored to 4 decimals), a user-profile post's rate is
`(comments + awards) / max(score, 1) * 100` (own-score denominator floored
at 1, stored to 2 decimals); the very same 10-score/10-comment post rates
20 in a 100-member subreddit but 100 on a user profile. -/
theorem reddit_engagement_formulas_spec :
    (∀ (m : ℤ) (p : RawPost) (row : RedditPostRow), subredditPostRow m p = some row →
      row.engagement_rate = roundTo (((p.score : ℚ) + p.num_comments) / m * 100) 4
      ∧ |row.engagement_rate - ((p.score : ℚ) + p.num_comments) / m * 100| ≤ 1 / 20000)
    ∧ (∀ p : RawPost,
      (userPostRow p).engagement_rate =
        roundTo (((p.num_comments : ℚ) + p.total_awards_received)
          / ((max p.score 1 : ℤ) : ℚ) * 100) 2
      ∧ |(userPostRow p).engagement_rate -
          ((p.num_comments : ℚ) + p.total_awards_received)
            / ((max p.score 1 : ℤ) : ℚ) * 100| ≤ 1 / 200)
    ∧ (subredditPostRow 100 ⟨10, 10, 0⟩ =
        some { upvotes := 10, num_comments := 10, num_awards := 0, engagement_rate := 20 })
    ∧ (userPostRow ⟨10, 10, 0⟩).engagement_rate = 100 := by
  refine ⟨fun m p row h => ?_, fun p => ?_, ?_, ?_⟩
  · rw [subredditPostRow] at h
    split at h
    · exact absurd h (by simp)
    · rw [Option.some_inj] at h
      subst h
      refine ⟨rfl, ?_⟩
      have hb := roundTo_abs_sub_le (((p.score : ℚ) + p.num_comments) / m * 100) 4
      norm_num at hb
      simpa using hb
  · refine ⟨rfl, ?_⟩
    have hb := roundTo_abs_sub_le (((p.num_comments : ℚ) + p.total_awards_received)
      / ((max p.score 1 : ℤ) : ℚ) * 100) 2
    norm_num at hb
    simpa [userPostRow] using hb
  · rw [subredditPostRow]
    norm_num [roundTo, round_eq]
  · show roundTo (((10 : ℚ) + 0) / ((max (10 : ℤ) 1 : ℤ) : ℚ) * 100) 2 = 100
    norm_num [roundTo, round_eq]

/-- Witness for `reddit_engagement_formulas_spec` on the concrete
10-score/10-comment post in a 100-member subreddit. -/
theorem reddit_engagement_formulas_spec_witness :
    (postRowB.engagement_rate =
      roundTo ((((10 : ℤ) : ℚ) + (10 : ℕ)) / ((100 : ℤ) : ℚ) * 100) 4)
    ∧ |postRowB.engagement_rate -
        (((10 : ℤ) : ℚ) + (10 : ℕ)) / ((100 : ℤ) : ℚ) * 100| ≤ 1 / 20000 :=
  reddit_engagement_formulas_spec.1 100 ⟨10, 10, 0⟩ postRowB
    (by norm_num [subredditPostRow, postRowB])

/-- **C9, counterexample.** A 24-character input starting with `UC` is
*not* always returned unchanged: `extract_channel_id` strips surrounding
whitespace first, so for `"UCaaaaaaaaaaaaaaaaaaaaa "` (23 ID characters
plus a trailing space — 24 characters starting with `UC`) the stripped
string is 23 characters long, the fast path is not taken, and with no
search results resolution raises the `ValueError` instead of returning the
input. -/
theorem channel_id_with_whitespace_not_returned :
    ("UCaaaaaaaaaaaaaaaaaaaaa ".data.length = 24
      ∧ "UC".data.isPrefixOf "UCaaaaaaaaaaaaaaaaaaaaa ".data = true)
    ∧ (extract_channel_id emptyNet "UCaaaaaaaaaaaaaaaaaaaaa ").1 ≠
        Except.ok "UCaaaaaaaaaaaaaaaaaaaaa "
    ∧ (extract_channel_id emptyNet "UCaaaaaaaaaaaaaaaaaaaaa ").1 =
        Except.error "Could not extract channel ID from: UCaaaaaaaaaaaaaaaaaaaaa" := by
  refine ⟨⟨by decide, by decide⟩, ?_, by rfl⟩
  intro hcontra
  have he : (extract_channel_id emptyNet "UCaaaaaaaaaaaaaaaaaaaaa ").1 =
      Except.error "Could not extract channel ID from: UCaaaaaaaaaaaaaaaaaaaaa" := rfl
  rw [he] at hcontra
  exact Except.noConfusion hcontra

/-- **C9, amended.** After stripping surrounding whitespace, an input whose
stripped form is 24 characters starting with `UC` resolves to that stripped
form with zero network calls; and an input whose stripped form is not such
an ID, matches none of the URL patterns, and for which every handle lookup
and search comes back empty, fails with the `ValueError` naming the
stripped input. -/
theorem channel_resolution_spec :
    (∀ l : List Char, ucCheck l = true ↔ (l.take 2 = "UC".data ∧ l.length = 24))
    ∧ (∀ (net : NetOracle) (s : String), ucCheck (pyStrip s.data) = true →
        extract_channel_id net s = (Except.ok (String.mk (pyStrip s.data)), 0))
    ∧ (∀ (net : NetOracle) (s : String),
        (∀ q, net.forHandle q = none) →
        (∀ q, net.searchChannels q = []) →
        ucCheck (pyStrip s.data) = false →
        (∀ pre ∈ urlPatterns, scanCapture pre (pyStrip s.data) = none) →
        (extract_channel_id net s).1 =
          Except.error
            (String.mk ("Could not extract channel ID from: ".data ++ pyStrip s.data))) := by
  refine ⟨fun l => ?_, fun net s h => ?_, fun net s h1 h2 h3 h4 => ?_⟩
  · simp [ucCheck]
  · rw [extract_channel_id]
    simp [h]
  · have hafter : ∀ n, (afterHandleStage net (pyStrip s.data) n).1 =
        Except.error
          (String.mk ("Could not extract channel ID from: ".data ++ pyStrip s.data)) := by
      intro n
      rw [afterHandleStage, patLoop_no_match net _ urlPatterns n h4, h2]
      simp [searchResolve]
    rw [extract_channel_id]
    simp only [h3, Bool.false_eq_true, if_false]
    by_cases hat : (pyStrip s.data).take 1 = ['@']
    · simp only [hat, if_true, h1, h2]
      simp [searchResolve, hafter]
    · simp only [hat, if_false]
      exact hafter 0

/-- Witness for `channel_resolution_spec`: the canonical 24-character ID
resolves to itself with no network call; the junk string `"zzz"` fails with
the error naming it. -/
theorem channel_resolution_spec_witness :
    extract_channel_id emptyNet "UCabcdefghijklmnopqrstuv" =
      (Except.ok "UCabcdefghijklmnopqrstuv", 0)
    ∧ (extract_channel_id emptyNet "zzz").1 =
      Except.error "Could not extract channel ID from: zzz" := by
  constructor
  · exact channel_resolution_spec.2.1 emptyNet "UCabcdefghijklmnopqrstuv" (by decide)
  · exact channel_resolution_spec.2.2 emptyNet "zzz" (fun q => rfl) (fun q => rfl)
      (by decide) (by decide)

/-- **C2.** `get_period_stats(start, end)` aggregates exactly the rows with
`start ≤ upload_date < end` (half-open interval), and its engagement rate is
recomputed from the summed counts of the selected rows — not the mean of the
per-row rates: the 10-view/10-like plus 1,000,000-view/0-like example yields
a rate below 1, while the mean of the two per-row rates is 50. -/
theorem period_stats_spec (df : List VRow) (start stop : ℤ) :
    (∀ r : VRow, r ∈ periodFilter df start stop ↔
      r ∈ df ∧ start ≤ r.upload_date ∧ r.upload_date < stop)
    ∧ (get_period_stats df start stop).videos = (periodFilter df start stop).length
    ∧ (get_period_stats df start stop).views = sumViews (periodFilter df start stop)
    ∧ (get_period_stats df start stop).likes = sumLikes (periodFilter df start stop)
    ∧ (get_period_stats df start stop).comments = sumComments (periodFilter df start stop)
    ∧ (get_period_stats df start stop).engagement_rate =
        calculate_engagement_rate (sumViews (periodFilter df start stop))
          (sumLikes (periodFilter df start stop)) (sumComments (periodFilter df start stop))
    ∧ (get_period_stats [⟨0, 10, 10, 0⟩, ⟨0, 1000000, 0, 0⟩] 0 1).engagement_rate < 1
    ∧ (calculate_engagement_rate 10 10 0 + calculate_engagement_rate 1000000 0 0) / 2 = 50 := by
  have hmem : ∀ r : VRow, r ∈ periodFilter df start stop ↔
      r ∈ df ∧ start ≤ r.upload_date ∧ r.upload_date < stop := by
    intro r
    simp [periodFilter, List.mem_filter]
  have hfields : ∀ l : List VRow,
      (if l.isEmpty then (⟨0, 0, 0, 0, 0⟩ : PeriodStats)
        else ⟨l.length, sumViews l, sumLikes l, sumComments l,
          calculate_engagement_rate (sumViews l) (sumLikes l) (sumComments l)⟩) =
      ⟨l.length, sumViews l, sumLikes l, sumComments l,
        calculate_engagement_rate (sumViews l) (sumLikes l) (sumComments l)⟩ := by
    intro l
    cases l with
    | nil => simp [sumViews, sumLikes, sumComments, calculate_engagement_rate]
    | cons a t => rfl
  refine ⟨hmem, ?_, ?_, ?_, ?_, ?_, ?_, ?_⟩
  · rw [get_period_stats, hfields]
  · rw [get_period_stats, hfields]
  · rw [get_period_stats, hfields]
  · rw [get_period_stats, hfields]
  · rw [get_period_stats, hfields]
  · norm_num [get_period_stats, periodFilter, sumViews, sumLikes, sumComments,
      calculate_engagement_rate]
  · norm_num [calculate_engagement_rate]

/-- **C4.** Starting from an empty state, after `N` calls to
`increment_usage` on today's date, `can_make_request` returns `false` iff
`N ≥ L` where `L` is the configured daily limit (defaulting to 50 for
youtube and 1000 for reddit when unconfigured); and on any other date the
counted usage is 0 regardless of today's count. -/
theorem quota_tracker_spec (secrets : Option (List (String × ℕ))) (platform : String)
    (today : ℤ) (N : ℕ) :
    (can_make_request secrets (incrN N [] today platform) today platform = false
      ↔ limitFor secrets platform ≤ N)
    ∧ (∀ d : ℤ, d ≠ today → getUsage (incrN N [] today platform) d platform = 0)
    ∧ limitFor none "youtube" = 50
    ∧ limitFor none "reddit" = 1000 := by
  refine ⟨?_, fun d hd => getUsage_incrN_other_day N today d platform platform hd, rfl, ?_⟩
  · rw [can_make_request, getUsage_incrN]
    simp [Nat.not_lt]
  · simp [limitFor, default_limit]

/-- Witness for `quota_tracker_spec`: with no configured limits, after 3
youtube increments on day 0, day 1 counts 0 requests. -/
theorem quota_tracker_spec_witness :
    (1 : ℤ) ≠ 0 ∧ getUsage (incrN 3 [] 0 "youtube") 1 "youtube" = 0 :=
  ⟨by decide, (quota_tracker_spec none "youtube" 0 3).2.1 1 (by decide)⟩

/-- **C5, counterexample.** `QuotaManager._cleanup_old_data` does *not*
purge every date other than today: an entry dated yesterday (day `-1` with
today = day `0`) is retained unchanged. -/
theorem cleanup_retains_yesterday :
    cleanup_old_data [(-1, [("youtube", 5)])] 0 = [(-1, [("youtube", 5)])]
    ∧ (-1 : ℤ) ≠ 0 := by
  constructor
  · rfl
  · decide

/-- **C5, amended.** `QuotaManager._cleanup_old_data` retains exactly the
entries dated within the last 7 days (`today - 6 ≤ date ≤ today`), purging
older (and future) ones; only `APIManager.reset_quota_if_needed` retains
solely the current date's entry. -/
theorem quota_cleanup_spec (u : Usage) (today : ℤ) (kv : ℤ × List (String × ℕ)) :
    (kv ∈ cleanup_old_data u today ↔ kv ∈ u ∧ today - 6 ≤ kv.1 ∧ kv.1 ≤ today)
    ∧ (kv ∈ reset_quota_if_needed u today ↔ kv ∈ u ∧ kv.1 = today) := by
  constructor
  · have hmem7 : kv.1 ∈ (List.range 7).map (fun i => today - (i : ℤ)) ↔
        (today - 6 ≤ kv.1 ∧ kv.1 ≤ today) := by
      have hlist : (List.range 7).map (fun i => today - (i : ℤ)) =
          [today - 0, today - 1, today - 2, today - 3, today - 4, today - 5,
            today - 6] := rfl
      rw [hlist]
      simp only [List.mem_cons, List.not_mem_nil, or_false]
      omega
    simp only [cleanup_old_data, List.mem_filter, decide_eq_true_eq, hmem7]
  · simp [reset_quota_if_needed, List.mem_filter]

/-- **C10.** The constructor's `self.df = df.copy()` makes the calculator
operate on a private copy: after constructing an `EngagementCalculator` on
the caller's dataframe and running any sequence of its methods, every
pre-existing store cell — in particular the caller's dataframe — is
unchanged, while the calculator reads a value equal to the caller's
dataframe at construction time. -/
theorem constructor_copy_frame_spec (store : DFStore) (dfRef : ℕ) (now : ℤ)
    (ms : List CalcMethod) (i : ℕ) (hi : i < store.length) :
    (runMethods (engCalcInit store dfRef now).2 (engCalcInit store dfRef now).1 ms).getD i []
      = store.getD i []
    ∧ readDf (engCalcInit store dfRef now).2 (engCalcInit store dfRef now).1
      = store.getD dfRef [] := by
  constructor
  · rw [runMethods_store, engCalcInit]
    exact List.getD_append _ _ _ _ hi
  · rw [readDf, engCalcInit]
    rw [List.getD_append_right _ _ _ _ (le_refl _)]
    simp

/-- Witness for `constructor_copy_frame_spec`: a one-dataframe store, one
`get_last_30_days_stats` call, caller's cell 0 intact. -/
theorem constructor_copy_frame_spec_witness :
    (0 : ℕ) < ([[⟨0, 1, 2, 3⟩]] : DFStore).length
    ∧ ((runMethods (engCalcInit [[⟨0, 1, 2, 3⟩]] 0 5).2 (engCalcInit [[⟨0, 1, 2, 3⟩]] 0 5).1
        [CalcMethod.last30]).getD 0 [] = ([[⟨0, 1, 2, 3⟩]] : DFStore).getD 0 []
      ∧ readDf (engCalcInit [[⟨0, 1, 2, 3⟩]] 0 5).2 (engCalcInit [[⟨0, 1, 2, 3⟩]] 0 5).1
        = ([[⟨0, 1, 2, 3⟩]] : DFStore).getD 0 []) :=
  ⟨by decide, constructor_copy_frame_spec [[⟨0, 1, 2, 3⟩]] 0 5 [CalcMethod.last30] 0 (by decide)⟩

/-- Witness for `coverage_warning_spec` at `fetched = 94`, `total = 100`. -/
theorem coverage_warning_spec_witness :
    coverage_percent 94 100 = (94 : ℚ) / 100 * 100
    ∧ (coverageWarn 94 100 = true ↔ (94 : ℚ) / 100 < 95 / 100) :=
  ⟨(coverage_warning_spec 94 100 (by norm_num)).1,
   (coverage_warning_spec 94 100 (by norm_num)).2.1⟩

end YTA
